import Mathlib

/-!
Verification of `src/stride_threat_model.py`: a STRIDE threat-modeling tool
that loads an architecture-diagram image, asks a vision LLM for components,
asks for a STRIDE analysis, and renders a Markdown report.

Shallow embedding conventions:
  * Python `str` values manipulated character-by-character (strip, find,
    slicing) are `List Char`; report lines, built only by concatenation,
    are Lean `String`.
  * External library calls (`json.loads`, `json.dumps`, the LLM transport,
    the file system) are parameters of the embedded functions.
  * Python `dict.get`/`dict[k] = v` over string keys are association-list
    operations with first-match semantics (Python dicts have unique keys,
    and insertion keeps an existing key's position).
  * Exceptions become `Except` error values.
-/

/-! ## Python string primitives -/

/-- The characters `str.strip()` removes: exactly those with
`str.isspace()` true — `\t`–`\r`, the separators `\x1c`–`\x1f`, space,
NEL `\x85`, NBSP `\xa0`, and the Unicode space/line/paragraph
separators. -/
def pyWhitespace (c : Char) : Bool :=
  ('\x09' ≤ c ∧ c ≤ '\x0d') || ('\x1c' ≤ c ∧ c ≤ '\x1f') || c = ' ' ||
    c = '\x85' || c = '\xa0' || c = '\u1680' || ('\u2000' ≤ c ∧ c ≤ '\u200a') ||
    c = '\u2028' || c = '\u2029' || c = '\u202f' || c = '\u205f' || c = '\u3000'

/-- `str.lstrip()`. -/
def pyLStrip (s : List Char) : List Char := s.dropWhile pyWhitespace

/-- `str.rstrip()`. -/
def pyRStrip (s : List Char) : List Char := (s.reverse.dropWhile pyWhitespace).reverse

/-- `str.strip()` (removing leading and trailing whitespace commutes, so it
is right-strip then left-strip). -/
def pyStrip (s : List Char) : List Char := pyLStrip (pyRStrip s)

/-- Helper for `str.find`: first index of `c` at offset `i`, `-1` if absent. -/
def pyFindAux : List Char → Char → Nat → Int
  | [], _, _ => -1
  | x :: xs, c, i => if x = c then (i : Int) else pyFindAux xs c (i + 1)

/-- Python `s.find(c)`: index of the first occurrence of `c`, `-1` if none. -/
def pyFind (s : List Char) (c : Char) : Int := pyFindAux s c 0

/-- Helper for `str.rfind`: best index seen so far. -/
def pyRFindAux : List Char → Char → Nat → Int → Int
  | [], _, _, best => best
  | x :: xs, c, i, best => pyRFindAux xs c (i + 1) (if x = c then (i : Int) else best)

/-- Python `s.rfind(c)`: index of the last occurrence of `c`, `-1` if none. -/
def pyRFind (s : List Char) (c : Char) : Int := pyRFindAux s c 0 (-1)

/-- Python `s[a:b]` for `0 ≤ a` and `0 ≤ b` (the only case the program uses). -/
def pySlice (s : List Char) (a b : Int) : List Char := (s.take b.toNat).drop a.toNat

/-- Python `s.split("\n", 1)[1]`: the text after the first newline, `none`
when there is no newline (in Python the `[1]` raises `IndexError` then). -/
def afterFirstNewline : List Char → Option (List Char)
  | [] => none
  | c :: cs => if c = '\n' then some cs else afterFirstNewline cs

/-- Python `dict.get(k, dflt)` over an association list (first match wins). -/
def pyDictGet {α β : Type} [DecidableEq α] : List (α × β) → α → β → β
  | [], _, dflt => dflt
  | (k, v) :: rest, key, dflt => if key = k then v else pyDictGet rest key dflt

/-- Python `d[k] = v`: replace the first binding of `k` in place, or append. -/
def pyDictSet {α β : Type} [DecidableEq α] : List (α × β) → α → β → List (α × β)
  | [], key, v => [(key, v)]
  | (k, w) :: rest, key, v =>
      if key = k then (key, v) :: rest else (k, w) :: pyDictSet rest key v

/-! ## Response parsing (extract_components lines 119–137,
analyze_stride lines 208–224) -/

/-- The triple-backtick fence marker. -/
def fenceMarker : List Char := ['`', '`', '`']

/-- What parsing a model response can raise: the explicit
`raise ValueError(...)` (the ResponseParseError), a `json.JSONDecodeError`
propagating out of the repair path, and the `IndexError` from
`raw.split("\n", 1)[1]` on a fence line with no newline. -/
inductive RespErr where
  | responseParseError
  | jsonDecodeError
  | indexError
deriving DecidableEq

/-- Lines 121–126 of `extract_components`: strip markdown fences.
`raw` is already `.strip()`ed (line 119). -/
def extract_componentsStripStep (raw : List Char) : Except RespErr (List Char) :=
  if fenceMarker.isPrefixOf raw then
    match afterFirstNewline raw with
    | none => .error .indexError
    | some r1 =>
        let r2 := if fenceMarker.isSuffixOf r1 then r1.take (r1.length - 3) else r1
        .ok (pyStrip r2)
  else .ok raw

/-- Lines 128–137 of `extract_components`: strict `json.loads`, then the
first-`{`-to-last-`}` repair, then `raise ValueError`. `jsonLoads` is the
external `json.loads` (`none` = `JSONDecodeError`). -/
def extract_componentsParseStep {J : Type} (jsonLoads : List Char → Option J)
    (raw : List Char) : Except RespErr J :=
  match jsonLoads raw with
  | some v => .ok v
  | none =>
      let start := pyFind raw '\x7b'
      let stop := pyRFind raw '\x7d' + 1
      if start ≠ -1 ∧ stop > start then
        match jsonLoads (pySlice raw start stop) with
        | some v => .ok v
        | none => .error .jsonDecodeError
      else .error .responseParseError

/-- Lines 119–137 of `extract_components`: the whole response-to-document
step (`response.content.strip()`, fence stripping, parsing). -/
def extract_componentsParse {J : Type} (jsonLoads : List Char → Option J)
    (content : List Char) : Except RespErr J :=
  extract_componentsStripStep (pyStrip content) >>= extract_componentsParseStep jsonLoads

/-- Lines 210–215 of `analyze_stride`: the same fence stripping, repeated
verbatim in the source. -/
def analyze_strideStripStep (raw : List Char) : Except RespErr (List Char) :=
  if fenceMarker.isPrefixOf raw then
    match afterFirstNewline raw with
    | none => .error .indexError
    | some r1 =>
        let r2 := if fenceMarker.isSuffixOf r1 then r1.take (r1.length - 3) else r1
        .ok (pyStrip r2)
  else .ok raw

/-- Lines 217–224 of `analyze_stride`: strict parse, bracket repair,
`raise ValueError`. -/
def analyze_strideParseStep {J : Type} (jsonLoads : List Char → Option J)
    (raw : List Char) : Except RespErr J :=
  match jsonLoads raw with
  | some v => .ok v
  | none =>
      let start := pyFind raw '\x7b'
      let stop := pyRFind raw '\x7d' + 1
      if start ≠ -1 ∧ stop > start then
        match jsonLoads (pySlice raw start stop) with
        | some v => .ok v
        | none => .error .jsonDecodeError
      else .error .responseParseError

/-- Lines 208–224 of `analyze_stride`: the whole response-to-document step. -/
def analyze_strideParse {J : Type} (jsonLoads : List Char → Option J)
    (content : List Char) : Except RespErr J :=
  analyze_strideStripStep (pyStrip content) >>= analyze_strideParseStep jsonLoads

/-! ## Image loader (`load_image_as_base64`, lines 37–56) -/

/-- ASCII lowercasing, as `str.lower()` acts on the extensions at hand. -/
def pyLowerChar (c : Char) : Char :=
  if 'A' ≤ c ∧ c ≤ 'Z' then Char.ofNat (c.toNat + 32) else c

/-- Python `s.lower()`. -/
def pyLower (s : List Char) : List Char := s.map pyLowerChar

/-- `pathlib.Path(p).name`: the final path component (trailing slashes
dropped). -/
def pathName (p : List Char) : List Char :=
  ((p.reverse.dropWhile (· = '/')).takeWhile (· ≠ '/')).reverse

/-- `pathlib.Path(p).suffix`: `name[i:]` for `i = name.rfind('.')` when
`0 < i < len(name) - 1`, else the empty string. -/
def pathSuffix (p : List Char) : List Char :=
  let nm := pathName p
  let i := pyRFind nm '.'
  if 0 < i ∧ i < (nm.length : Int) - 1 then nm.drop i.toNat else []

/-- The base64 alphabet of `base64.standard_b64encode`. -/
def b64alphabet : List Char :=
  "ABCDEFGHIJKLMNOPQRSTUVWXYZabcdefghijklmnopqrstuvwxyz0123456789+/".toList

/-- The base64 digit for a 6-bit value. -/
def b64digit (n : Nat) : Char := b64alphabet.getD n '?'

/-- `base64.standard_b64encode` on a byte list (each byte < 256), with
`=` padding, decoded to text. -/
def b64encode : List Nat → List Char
  | [] => []
  | [a] => [b64digit (a / 4), b64digit (a % 4 * 16), '=', '=']
  | [a, b] => [b64digit (a / 4), b64digit (a % 4 * 16 + b / 16), b64digit (b % 16 * 4), '=']
  | a :: b :: c :: rest =>
      b64digit (a / 4) :: b64digit (a % 4 * 16 + b / 16) ::
      b64digit (b % 16 * 4 + c / 64) :: b64digit (c % 64) :: b64encode rest

/-- `mime_map` of lines 44–51. -/
def mime_map : List (List Char × String) :=
  [(".png".toList, "image/png"),
   (".jpg".toList, "image/jpeg"),
   (".jpeg".toList, "image/jpeg"),
   (".gif".toList, "image/gif"),
   (".webp".toList, "image/webp"),
   (".bmp".toList, "image/bmp")]

/-- The one failure of the loader: `raise FileNotFoundError` (line 41). -/
inductive LoadErr where
  | fileNotFoundError
deriving DecidableEq

/-- `load_image_as_base64` (lines 37–56). The file system is the parameter
`fs`: `none` means the path does not exist, `some bytes` its content. -/
def load_image_as_base64 (fs : List Char → Option (List Nat))
    (image_path : List Char) : Except LoadErr (List Char × String) :=
  match fs image_path with
  | none => .error .fileNotFoundError
  | some bytes =>
      let ext := pyLower (pathSuffix image_path)
      let mime_type := pyDictGet mime_map ext "image/png"
      .ok (b64encode bytes, mime_type)

/-- Modelled from the claim's extension-to-MIME table (C5), to be compared
with the lookup `load_image_as_base64` performs in `mime_map`. -/
def claimMimeTable (ext : List Char) : String :=
  if ext = ".png".toList then "image/png"
  else if ext = ".jpg".toList then "image/jpeg"
  else if ext = ".jpeg".toList then "image/jpeg"
  else if ext = ".gif".toList then "image/gif"
  else if ext = ".webp".toList then "image/webp"
  else if ext = ".bmp".toList then "image/bmp"
  else "image/png"

/-! ## Report data model (the JSON shapes of §3 of the two prompts, as the
renderer reads them: every field access in `generate_report` is a
`dict.get` with a default — `Option.getD` here — except `comp["name"]` on
line 296). -/

/-- One entry of a component's `connections` list. -/
structure Connection where
  target : Option String
  data_flow : Option String
deriving DecidableEq

/-- One entry of `components_data["components"]`. -/
structure Component where
  name : Option String
  type : Option String
  provider : Option String
  description : Option String
  connections : Option (List Connection)
deriving DecidableEq

/-- One threat of a component's STRIDE analysis. -/
structure Threat where
  category : Option String
  threat : Option String
  severity : Option String
  vulnerabilities : Option (List String)
  countermeasures : Option (List String)
deriving DecidableEq

/-- One entry of `stride_data["stride_analysis"]`. -/
structure StrideEntry where
  component_name : Option String
  component_type : Option String
  threats : Option (List Threat)
deriving DecidableEq

/-- The document `extract_components` returns, as the renderer reads it. -/
structure ComponentsData where
  components : Option (List Component)
  architecture_summary : Option String
deriving DecidableEq

/-- The document `analyze_stride` returns, as the renderer reads it. -/
structure StrideData where
  stride_analysis : Option (List StrideEntry)
  executive_summary : Option String
  overall_risk_level : Option String
deriving DecidableEq

/-! ## Report generation (`generate_report`, lines 239–390) -/

/-- `SEVERITY_EMOJI` (lines 231–236). -/
def SEVERITY_EMOJI : List (String × String) :=
  [("Critical", "🔴"), ("High", "🟠"), ("Medium", "🟡"), ("Low", "🟢")]

/-- The only uncaught exception in `generate_report`: `comp["name"]`
(line 296) on a component record without a `name` key. -/
inductive RenderErr where
  | keyError (key : String)
deriving DecidableEq

/-- Python `"; ".join(xs)` / `"\n".join(xs)`. -/
def pyJoin (sep : String) : List String → String
  | [] => ""
  | [x] => x
  | x :: xs => x ++ sep ++ pyJoin sep xs

/-- One row of the component inventory table (lines 284–287). -/
def componentRow (i : Nat) (comp : Component) : String :=
  "| " ++ toString i ++ " | **" ++ comp.name.getD "N/A" ++ "** | " ++
    comp.type.getD "N/A" ++ " | " ++ comp.provider.getD "N/A" ++ " | " ++
    comp.description.getD "N/A" ++ " |"

/-- `for i, comp in enumerate(components, 1)` (line 283). -/
def componentRows : Nat → List Component → List String
  | _, [] => []
  | i, comp :: rest => componentRow i comp :: componentRows (i + 1) rest

/-- One connection line of the data-flow listing (lines 298–300). -/
def connLine (conn : Connection) : String :=
  "- → **" ++ conn.target.getD "?" ++ "**: " ++ conn.data_flow.getD "?"

/-- Lines 294–301: one component's data-flow block; `comp["name"]` has no
default, so a nameless component with connections raises `KeyError`. -/
def dataFlowBlock (comp : Component) : Except RenderErr (List String) :=
  let connections := comp.connections.getD []
  if connections.isEmpty then .ok []
  else
    match comp.name with
    | none => .error (.keyError "name")
    | some nm => .ok (("### " ++ nm) :: connections.map connLine ++ [""])

/-- Lines 293–301: the data-flow loop over all components. -/
def dataFlowLines : List Component → Except RenderErr (List String)
  | [] => .ok []
  | comp :: rest => do
      let block ← dataFlowBlock comp
      let tail ← dataFlowLines rest
      pure (block ++ tail)

/-- `t.get("severity", "Baixa")` of the tally loop (line 349). -/
def sevOf (t : Threat) : String := t.severity.getD "Baixa"

/-- `t.get("category", "Outro")` of the tally loop (line 351). -/
def catOf (t : Threat) : String := t.category.getD "Outro"

/-- One row of a per-component STRIDE table (lines 325–334). -/
def threatRow (t : Threat) : String :=
  let cat := t.category.getD "N/A"
  let threat_desc := t.threat.getD "N/A"
  let sev := t.severity.getD "N/A"
  let emoji := pyDictGet SEVERITY_EMOJI sev "⚪"
  let vulns := pyJoin "; " (t.vulnerabilities.getD [])
  let counters := pyJoin "; " (t.countermeasures.getD [])
  "| **" ++ cat ++ "** | " ++ threat_desc ++ " | " ++ emoji ++ " " ++ sev ++
    " | " ++ vulns ++ " | " ++ counters ++ " |"

/-- Lines 309–336: one entry's section of the STRIDE analysis. -/
def strideEntryLines (entry : StrideEntry) : List String :=
  let comp_name := entry.component_name.getD "Desconhecido"
  let comp_type := entry.component_type.getD "Desconhecido"
  let threats := entry.threats.getD []
  ("### 🔹 " ++ comp_name ++ " (" ++ comp_type ++ ")") :: "" ::
    (if threats.isEmpty then ["_Nenhuma ameaça significativa identificada._", ""]
     else
       ["| Categoria | Ameaça | Severidade | Vulnerabilidades | Contramedidas |",
        "|-----------|--------|-----------|-------------------|----|"] ++
         threats.map threatRow ++ [""])

/-- The STRIDE analysis loop over all entries (lines 309–336). -/
def strideAnalysisLines (entries : List StrideEntry) : List String :=
  (entries.map strideEntryLines).flatten

/-- The initial `severity_counts` literal of line 345. -/
def severityCountsInit : List (String × Nat) :=
  [("Crítica", 0), ("Alta", 0), ("Média", 0), ("Baixa", 0),
   ("Critical", 0), ("High", 0), ("Medium", 0), ("Low", 0)]

/-- The body of the tally loop (lines 349–352), updating
`(severity_counts, category_counts)` for one threat. -/
def tallyThreat (counts : List (String × Nat) × List (String × Nat))
    (t : Threat) : List (String × Nat) × List (String × Nat) :=
  let sc := pyDictSet counts.1 (sevOf t) (pyDictGet counts.1 (sevOf t) 0 + 1)
  let cc := pyDictSet counts.2 (catOf t) (pyDictGet counts.2 (catOf t) 0 + 1)
  (sc, cc)

/-- Lines 345–352: the full tally over `stride_analysis`. -/
def tallyEntries (entries : List StrideEntry) :
    List (String × Nat) × List (String × Nat) :=
  entries.foldl (fun acc entry => (entry.threats.getD []).foldl tallyThreat acc)
    (severityCountsInit, [])

/-- The label order of the severity-table loop (line 358). -/
def severityOrder : List String :=
  ["Crítica", "Alta", "Média", "Baixa", "Critical", "High", "Medium", "Low"]

/-- Lines 358–361: the severity-table rows; a label whose emoji lookup
falls back to the neutral placeholder is skipped. -/
def severityTableRows (sc : List (String × Nat)) : List String :=
  severityOrder.filterMap fun sev =>
    let emoji := pyDictGet SEVERITY_EMOJI sev "⚪"
    if emoji ≠ "⚪" then
      some ("| " ++ emoji ++ " " ++ sev ++ " | " ++ toString (pyDictGet sc sev 0) ++ " |")
    else none

/-- The six STRIDE category labels of the category-table loop (lines 368–371). -/
def strideCategories : List String :=
  ["Spoofing", "Tampering", "Repudiation",
   "Information Disclosure", "Denial of Service", "Elevation of Privilege"]

/-- Lines 368–372: the category-table rows. -/
def categoryTableRows (cc : List (String × Nat)) : List String :=
  strideCategories.map fun cat =>
    "| " ++ cat ++ " | " ++ toString (pyDictGet cc cat 0) ++ " |"

/-- The pure part of the `lines` list of `generate_report` (lines
254–383), given the data-flow section `flows` (the one fallible part),
assembled section by section exactly in source order. `now` is the
timestamp of line 247, a parameter of the embedding. -/
def reportBody (components_data : ComponentsData)
    (stride_data : StrideData) (image_path now : String)
    (flows : List String) : List String :=
  let components := components_data.components.getD []
  let arch_summary := components_data.architecture_summary.getD "N/A"
  let stride_analysis := stride_data.stride_analysis.getD []
  let exec_summary := stride_data.executive_summary.getD "N/A"
  let overall_risk := stride_data.overall_risk_level.getD "N/A"
  let counts := tallyEntries stride_analysis
  "# 🛡️ Relatório de Modelagem de Ameaças STRIDE" :: "" ::
    ("**Gerado em:** " ++ now ++ "  ") ::
    ("**Diagrama de Origem:** `" ++ image_path ++ "`  ") ::
    ("**Nível de Risco Geral:** " ++ pyDictGet SEVERITY_EMOJI overall_risk "⚪" ++
      " **" ++ overall_risk ++ "**") ::
    "" :: "---" :: "" ::
    ("## 📋 Resumo Executivo" :: "" :: exec_summary :: "" ::
     "## 🏗️ Visão Geral da Arquitetura" :: "" :: arch_summary :: "" ::
     "## 🧩 Componentes Identificados" :: "" ::
     "| # | Componente | Tipo | Provedor | Descrição |" ::
     "|---|-----------|------|----------|-----------|" ::
     (componentRows 1 components ++ ("" ::
      "## 🔄 Fluxo de Dados" :: "" :: (flows ++ ("---" :: "" ::
      "## 🔍 Análise de Ameaças STRIDE" :: "" ::
      (strideAnalysisLines stride_analysis ++ ("---" :: "" ::
       "## 📊 Matriz de Resumo de Risco" :: "" :: "### Por Severidade" :: "" ::
       "| Severidade | Quantidade |" :: "|----------|-------|" ::
       (severityTableRows counts.1 ++ ("" ::
        "### Por Categoria STRIDE" :: "" :: "| Categoria | Quantidade |" ::
        "|----------|-------|" :: (categoryTableRows counts.2 ++ ("" ::
        "---" :: "" ::
        "*Este relatório foi gerado automaticamente usando análise de arquitetura com IA e modelagem de ameaças STRIDE. Os achados devem ser revisados e validados por um profissional de segurança qualificado.*" ::
        [""])))))))))))

/-- `generate_report` (lines 239–390) up to the final `"\n".join`: the
data-flow section is computed first (it alone can raise), then the full
`lines` list is assembled by `reportBody`. -/
def generate_reportLines (components_data : ComponentsData)
    (stride_data : StrideData) (image_path now : String) :
    Except RenderErr (List String) := do
  let flows ← dataFlowLines (components_data.components.getD [])
  pure (reportBody components_data stride_data image_path now flows)

/-- `generate_report` (lines 239–390): the returned Markdown text, the
`"\n".join` of the lines; `output_path` only names the file the text is
also written to. -/
def generate_report (components_data : ComponentsData) (stride_data : StrideData)
    (image_path output_path now : String) : Except RenderErr String :=
  let _ := output_path
  (generate_reportLines components_data stride_data image_path now).map (pyJoin "\n")

/-! ## State-threaded embeddings for the frame claim

`analyze_stride` (lines 194–224) and `generate_report` (lines 239–390) only
read their document arguments: every access is a `dict.get`, an iteration,
or the single `comp["name"]` lookup. The state-threaded embeddings below
pass the argument documents through each statement of the source in order
and return the final state next to the result, so that leaving the
arguments unchanged is a theorem about them rather than a typing accident.
The externals of `analyze_stride` — `json.dumps`, the prompt template's
`.format`, `llm.invoke`, `json.loads` — are parameters. -/

/-- `analyze_stride` (lines 194–224) with its `components_data` argument
threaded: line 197 reads `components`, line 198 reads
`architecture_summary`, lines 200–207 build the prompt and call the model,
lines 208–224 parse the reply; no statement writes to `components_data`. -/
def analyze_strideSt {J : Type} (dumps : List Component → String)
    (promptFormat : String → String → String) (llmInvoke : String → List Char)
    (jsonLoads : List Char → Option J) (components_data : ComponentsData) :
    Except RespErr J × ComponentsData :=
  let components_json := dumps (components_data.components.getD [])
  let architecture_summary := components_data.architecture_summary.getD "N/A"
  let prompt := promptFormat components_json architecture_summary
  (analyze_strideParse jsonLoads (llmInvoke prompt), components_data)

/-- `generate_report` with both document arguments threaded: the renderer's
reads are those of `generate_reportLines`; no statement writes to either
document. -/
def generate_reportSt (components_data : ComponentsData) (stride_data : StrideData)
    (image_path output_path now : String) :
    Except RenderErr String × (ComponentsData × StrideData) :=
  (generate_report components_data stride_data image_path output_path now,
   (components_data, stride_data))

/-! ## Counting characterizations (used in theorem statements) -/

/-- All threats of a `stride_analysis` list, in traversal order of the
tally loop (lines 347–348). -/
def threatsOf (entries : List StrideEntry) : List Threat :=
  (entries.map fun e => e.threats.getD []).flatten

/-- How many threats carry exactly the severity label `label` (after the
`"Baixa"` default of line 349). -/
def sevCount (entries : List StrideEntry) (label : String) : Nat :=
  ((threatsOf entries).filter fun t => sevOf t = label).length

/-- How many threats carry exactly the category label `label` (after the
`"Outro"` default of line 351). -/
def catCount (entries : List StrideEntry) (label : String) : Nat :=
  ((threatsOf entries).filter fun t => catOf t = label).length

/-! ## Lemmas about the string primitives -/

theorem pyFindAux_of_not_mem {s : List Char} {c : Char} (h : c ∉ s) :
    ∀ i, pyFindAux s c i = -1 := by
  induction s with
  | nil => intro i; rfl
  | cons x xs ih =>
      intro i
      simp only [List.mem_cons, not_or] at h
      have hx : ¬ x = c := fun hxc => h.1 hxc.symm
      simp [pyFindAux, hx, ih h.2]

theorem pyFindAux_nonneg {s : List Char} {c : Char} (h : c ∈ s) :
    ∀ i, 0 ≤ pyFindAux s c i := by
  induction s with
  | nil => cases h
  | cons x xs ih =>
      intro i
      by_cases hx : x = c
      · simp [pyFindAux, hx]
      · have hmem : c ∈ xs := by
          rcases List.mem_cons.mp h with h1 | h1
          · exact absurd h1.symm hx
          · exact h1
        simp [pyFindAux, hx, ih hmem]

theorem pyFind_of_not_mem {s : List Char} {c : Char} (h : c ∉ s) : pyFind s c = -1 :=
  pyFindAux_of_not_mem h 0

theorem pyFind_nonneg {s : List Char} {c : Char} (h : c ∈ s) : 0 ≤ pyFind s c :=
  pyFindAux_nonneg h 0

theorem pyRFindAux_of_not_mem {s : List Char} {c : Char} (h : c ∉ s) :
    ∀ i best, pyRFindAux s c i best = best := by
  induction s with
  | nil => intro i best; rfl
  | cons x xs ih =>
      intro i best
      simp only [List.mem_cons, not_or] at h
      have hx : ¬ x = c := fun hxc => h.1 hxc.symm
      simp [pyRFindAux, hx, ih h.2]

theorem pyRFindAux_nonneg {s : List Char} {c : Char} (h : c ∈ s) :
    ∀ i best, 0 ≤ pyRFindAux s c i best := by
  induction s with
  | nil => cases h
  | cons x xs ih =>
      intro i best
      by_cases hmem : c ∈ xs
      · simp only [pyRFindAux]
        exact ih hmem _ _
      · have hx : x = c := by
          rcases List.mem_cons.mp h with h1 | h1
          · exact h1.symm
          · exact absurd h1 hmem
        simp [pyRFindAux, hx, pyRFindAux_of_not_mem hmem]

theorem pyRFind_of_not_mem {s : List Char} {c : Char} (h : c ∉ s) : pyRFind s c = -1 :=
  pyRFindAux_of_not_mem h 0 (-1)

theorem pyRFind_nonneg {s : List Char} {c : Char} (h : c ∈ s) : 0 ≤ pyRFind s c :=
  pyRFindAux_nonneg h 0 (-1)

/-! ## C5 — image loader contract -/

/-- C5: `load_image_as_base64` fails with the `FileNotFoundError` exactly
when the path does not exist; otherwise it returns the file's bytes as a
base64 string together with the MIME type of the claim's
extension-to-MIME table, `image/png` for every other extension. -/
theorem c5_loader_contract :
    (∀ (fs : List Char → Option (List Nat)) (p : List Char),
        fs p = none → load_image_as_base64 fs p = .error .fileNotFoundError) ∧
    (∀ (fs : List Char → Option (List Nat)) (p : List Char) (bytes : List Nat),
        fs p = some bytes →
        load_image_as_base64 fs p =
          .ok (b64encode bytes, claimMimeTable (pyLower (pathSuffix p)))) := by
  have hmime : ∀ ext, pyDictGet mime_map ext "image/png" = claimMimeTable ext := by
    intro ext
    rfl
  refine ⟨fun fs p h => by simp [load_image_as_base64, h], fun fs p bytes h => ?_⟩
  simp [load_image_as_base64, h, hmime]

/-- A two-file file system for the C5 witness. -/
def fsC5 : List Char → Option (List Nat) :=
  fun p => if p = "photos/diagram.JPG".toList then some [77, 97, 110] else none

/-- C5 witness: the loader at a missing path and at `photos/diagram.JPG`
holding the bytes of `Man` (whose standard base64 is `TWFu`). -/
theorem c5_loader_contract_witness :
    load_image_as_base64 fsC5 "missing.txt".toList = .error .fileNotFoundError ∧
    load_image_as_base64 fsC5 "photos/diagram.JPG".toList =
      .ok ("TWFu".toList, "image/jpeg") := by
  constructor
  · exact c5_loader_contract.1 fsC5 "missing.txt".toList (by decide)
  · exact (c5_loader_contract.2 fsC5 "photos/diagram.JPG".toList [77, 97, 110]
      (by decide)).trans (by rfl)

/-! ## C3 — the JSON repair path -/

/-- C3: for response text the strict `json.loads` rejects, both parse steps
return the parse of the substring from the first `\x7b` to the last `\x7d`
whenever that substring parses; and when the text has no `\x7b` or no
`\x7d` at all, both fail with the explicit `ValueError`
(ResponseParseError) instead of returning a value. -/
theorem c3_repair_path :
    (∀ (J : Type) (jsonLoads : List Char → Option J) (raw : List Char) (v : J),
        jsonLoads raw = none → '\x7b' ∈ raw → '\x7d' ∈ raw →
        pyFind raw '\x7b' ≤ pyRFind raw '\x7d' →
        jsonLoads (pySlice raw (pyFind raw '\x7b') (pyRFind raw '\x7d' + 1)) = some v →
        extract_componentsParseStep jsonLoads raw = .ok v ∧
          analyze_strideParseStep jsonLoads raw = .ok v) ∧
    (∀ (J : Type) (jsonLoads : List Char → Option J) (raw : List Char),
        jsonLoads raw = none → ('\x7b' ∉ raw ∨ '\x7d' ∉ raw) →
        extract_componentsParseStep jsonLoads raw = .error .responseParseError ∧
          analyze_strideParseStep jsonLoads raw = .error .responseParseError) := by
  constructor
  · intro J jl raw v h0 hob hcb hord hsub
    have h1 : 0 ≤ pyFind raw '\x7b' := pyFind_nonneg hob
    have hcond : pyFind raw '\x7b' ≠ -1 ∧ pyRFind raw '\x7d' + 1 > pyFind raw '\x7b' :=
      ⟨by omega, by omega⟩
    constructor
    · simp only [extract_componentsParseStep, h0, hsub]
      rw [if_pos hcond]
    · simp only [analyze_strideParseStep, h0, hsub]
      rw [if_pos hcond]
  · intro J jl raw h0 hmiss
    have hcond : ¬(pyFind raw '\x7b' ≠ -1 ∧ pyRFind raw '\x7d' + 1 > pyFind raw '\x7b') := by
      rcases hmiss with hm | hm
      · rw [pyFind_of_not_mem hm]
        simp
      · rw [pyRFind_of_not_mem hm]
        by_cases hob : '\x7b' ∈ raw
        · have h1 := pyFind_nonneg hob
          rintro ⟨-, h2⟩
          omega
        · rw [pyFind_of_not_mem hob]
          simp
    constructor
    · simp only [extract_componentsParseStep, h0]
      rw [if_neg hcond]
    · simp only [analyze_strideParseStep, h0]
      rw [if_neg hcond]

/-- A toy `json.loads` for the C3 witness: parses exactly `\x7b\x7d`. -/
def jlC3 : List Char → Option Nat :=
  fun s => if s = "\x7b\x7d".toList then some 7 else none

/-- C3 witness: `x\x7b\x7dy` is repaired to the parse of `\x7b\x7d`, and
text with no braces raises the ResponseParseError, on both parse steps. -/
theorem c3_repair_path_witness :
    (extract_componentsParseStep jlC3 "x\x7b\x7dy".toList = .ok 7 ∧
      analyze_strideParseStep jlC3 "x\x7b\x7dy".toList = .ok 7) ∧
    (extract_componentsParseStep jlC3 "no braces".toList = .error .responseParseError ∧
      analyze_strideParseStep jlC3 "no braces".toList = .error .responseParseError) :=
  ⟨c3_repair_path.1 Nat jlC3 "x\x7b\x7dy".toList 7 (by decide) (by decide) (by decide)
      (by decide) (by decide),
    c3_repair_path.2 Nat jlC3 "no braces".toList (by decide) (Or.inl (by decide))⟩

/-! ## C4 — fence stripping is transparent to parsing -/

theorem pyLStrip_cons_of_not_ws {x : Char} (h : pyWhitespace x = false) (xs : List Char) :
    pyLStrip (x :: xs) = x :: xs := by
  simp [pyLStrip, List.dropWhile_cons, h]

theorem pyRStrip_append_of_not_ws {x : Char} (h : pyWhitespace x = false) (xs : List Char) :
    pyRStrip (xs ++ [x]) = xs ++ [x] := by
  simp [pyRStrip, List.dropWhile_cons, h]

theorem pyRStrip_append_of_ws {x : Char} (h : pyWhitespace x = true) (xs : List Char) :
    pyRStrip (xs ++ [x]) = pyRStrip xs := by
  simp [pyRStrip, List.dropWhile_cons, h]

theorem pyStrip_append_newline (xs : List Char) : pyStrip (xs ++ ['\n']) = pyStrip xs := by
  rw [pyStrip, pyStrip, pyRStrip_append_of_ws (by decide)]

theorem afterFirstNewline_append {xs : List Char} (h : '\n' ∉ xs) (ys : List Char) :
    afterFirstNewline (xs ++ '\n' :: ys) = some ys := by
  induction xs with
  | nil => simp [afterFirstNewline]
  | cons a as ih =>
      simp only [List.mem_cons, not_or] at h
      have ha : ¬ a = '\n' := fun hh => h.1 hh.symm
      simp only [List.cons_append, afterFirstNewline, ha, if_false]
      exact ih h.2

/-- C4 (amended): a payload wrapped in triple-backtick fences (with any
newline-free info string after the opening fence) parses exactly as the
same payload presented without fences, through the full
strip–fence–parse pipeline of both LLM calls — provided the stripped
payload does not itself open with a fence. Without that proviso the claim
is false: `c4_fence_stripping_counterexample` exhibits a payload whose
bare presentation enters the fence-stripping branch itself, so the two
presentations parse differently. -/
theorem c4_fence_stripping :
    ∀ (J : Type) (jsonLoads : List Char → Option J) (lang payload : List Char),
      '\n' ∉ lang →
      fenceMarker.isPrefixOf (pyStrip payload) = false →
      extract_componentsParse jsonLoads
          (fenceMarker ++ lang ++ '\n' :: payload ++ '\n' :: fenceMarker) =
        extract_componentsParse jsonLoads payload ∧
      analyze_strideParse jsonLoads
          (fenceMarker ++ lang ++ '\n' :: payload ++ '\n' :: fenceMarker) =
        analyze_strideParse jsonLoads payload := by
  intro J jl lang payload hlang hpay
  set w := fenceMarker ++ lang ++ '\n' :: payload ++ '\n' :: fenceMarker with hw
  have hstrip_w : pyStrip w = w := by
    have h1 : pyRStrip w = w := by
      have hw2 : w = (fenceMarker ++ lang ++ '\n' :: payload ++ ['\n', '`', '`']) ++ ['`'] := by
        simp [hw, fenceMarker]
      rw [hw2]
      exact pyRStrip_append_of_not_ws (by decide) _
    have h2 : pyLStrip w = w := by
      have hw3 : w = '`' :: ('`' :: '`' :: (lang ++ '\n' :: payload ++ '\n' :: fenceMarker)) := by
        simp [hw, fenceMarker]
      rw [hw3]
      exact pyLStrip_cons_of_not_ws (by decide) _
    rw [pyStrip, h1, h2]
  have hpre : fenceMarker.isPrefixOf w = true := by
    rw [hw]
    exact List.isPrefixOf_iff_prefix.mpr ⟨_, rfl⟩
  have hafter : afterFirstNewline w = some (payload ++ '\n' :: fenceMarker) := by
    have hw4 : w = (fenceMarker ++ lang) ++ '\n' :: (payload ++ '\n' :: fenceMarker) := by
      simp [hw]
    have hnl : '\n' ∉ fenceMarker ++ lang := by
      simp [fenceMarker, List.mem_append, hlang]
    rw [hw4]
    exact afterFirstNewline_append hnl _
  have hsuf : fenceMarker.isSuffixOf (payload ++ '\n' :: fenceMarker) = true := by
    have h6 : payload ++ '\n' :: fenceMarker = (payload ++ ['\n']) ++ fenceMarker := by simp
    rw [h6]
    exact List.isSuffixOf_iff_suffix.mpr ⟨_, rfl⟩
  have htake : (payload ++ '\n' :: fenceMarker).take
      ((payload ++ '\n' :: fenceMarker).length - 3) = payload ++ ['\n'] := by
    have h6 : payload ++ '\n' :: fenceMarker = (payload ++ ['\n']) ++ fenceMarker := by simp
    have hlen : ((payload ++ ['\n']) ++ fenceMarker).length - 3 = (payload ++ ['\n']).length := by
      simp [fenceMarker]
    rw [h6, hlen, List.take_left]
  have hstrip_p : pyStrip (payload ++ ['\n']) = pyStrip payload :=
    pyStrip_append_newline payload
  have hw_strip : extract_componentsStripStep w = .ok (pyStrip payload) := by
    simp only [extract_componentsStripStep, hpre, if_true, hafter, hsuf, htake, hstrip_p]
  have hp_strip : extract_componentsStripStep (pyStrip payload) = .ok (pyStrip payload) := by
    simp only [extract_componentsStripStep, hpay]
    simp
  have hw_strip2 : analyze_strideStripStep w = .ok (pyStrip payload) := by
    simp only [analyze_strideStripStep, hpre, if_true, hafter, hsuf, htake, hstrip_p]
  have hp_strip2 : analyze_strideStripStep (pyStrip payload) = .ok (pyStrip payload) := by
    simp only [analyze_strideStripStep, hpay]
    simp
  constructor
  · simp only [extract_componentsParse, hstrip_w, hw_strip, hp_strip]
  · simp only [analyze_strideParse, hstrip_w, hw_strip2, hp_strip2]

/-- A toy `json.loads` for the C4 witness: parses exactly `\x7b\x7d`. -/
def jlC4 : List Char → Option Nat :=
  fun s => if s = "\x7b\x7d".toList then some 3 else none

/-- C4 witness: the payload ` \x7b\x7d ` wrapped in a ```` ```json ````
fence parses exactly as the bare payload, on both pipelines. -/
theorem c4_fence_stripping_witness :
    extract_componentsParse jlC4
        (fenceMarker ++ "json".toList ++ '\n' :: " \x7b\x7d ".toList ++ '\n' :: fenceMarker) =
      extract_componentsParse jlC4 " \x7b\x7d ".toList ∧
    analyze_strideParse jlC4
        (fenceMarker ++ "json".toList ++ '\n' :: " \x7b\x7d ".toList ++ '\n' :: fenceMarker) =
      analyze_strideParse jlC4 " \x7b\x7d ".toList :=
  c4_fence_stripping Nat jlC4 "json".toList " \x7b\x7d ".toList (by decide) (by decide)

/-- A toy `json.loads` for the C4 counterexample: it parses the clean
list text and the repaired brace substring, to different values. -/
def jlC4cex : List Char → Option Nat :=
  fun s =>
    if s = "[1, \x7b\x7d]".toList then some 1
    else if s = "\x7b\x7d".toList then some 2
    else none

/-- A payload whose bare presentation opens, after `strip()` removes the
leading `\x1c` (a character `str.strip()` does remove), with a
triple-backtick fence of its own. -/
def payloadC4cex : List Char := "\x1c```\n[1, \x7b\x7d]".toList

/-- C4 counterexample: wrapped in a ```` ```json ```` fence, the payload
`\x1c`+fence+`\n[1, \x7b\x7d]` keeps its inner fence after one round of
fence stripping, strict parsing fails, and the brace repair returns the
parse of `\x7b\x7d`; presented without fences, the strip removes the
`\x1c`, the inner fence is stripped as the fence, and the clean
`[1, \x7b\x7d]` parses strictly. The two parse results differ on both
pipelines, refuting the claim as stated. -/
theorem c4_fence_stripping_counterexample :
    (extract_componentsParse jlC4cex
          (fenceMarker ++ "json".toList ++ '\n' :: payloadC4cex ++ '\n' :: fenceMarker) =
            .ok 2 ∧
        extract_componentsParse jlC4cex payloadC4cex = .ok 1 ∧
        analyze_strideParse jlC4cex
          (fenceMarker ++ "json".toList ++ '\n' :: payloadC4cex ++ '\n' :: fenceMarker) =
            .ok 2 ∧
        analyze_strideParse jlC4cex payloadC4cex = .ok 1) ∧
      extract_componentsParse jlC4cex
          (fenceMarker ++ "json".toList ++ '\n' :: payloadC4cex ++ '\n' :: fenceMarker) ≠
        extract_componentsParse jlC4cex payloadC4cex ∧
      analyze_strideParse jlC4cex
          (fenceMarker ++ "json".toList ++ '\n' :: payloadC4cex ++ '\n' :: fenceMarker) ≠
        analyze_strideParse jlC4cex payloadC4cex := by
  have h1 : extract_componentsParse jlC4cex
      (fenceMarker ++ "json".toList ++ '\n' :: payloadC4cex ++ '\n' :: fenceMarker) =
        .ok 2 := rfl
  have h2 : extract_componentsParse jlC4cex payloadC4cex = .ok 1 := rfl
  have h3 : analyze_strideParse jlC4cex
      (fenceMarker ++ "json".toList ++ '\n' :: payloadC4cex ++ '\n' :: fenceMarker) =
        .ok 2 := rfl
  have h4 : analyze_strideParse jlC4cex payloadC4cex = .ok 1 := rfl
  refine ⟨⟨h1, h2, h3, h4⟩, ?_, ?_⟩
  · rw [h1, h2]
    simp
  · rw [h3, h4]
    simp

/-! ## C9 — the one raw dictionary access of the renderer -/

theorem dataFlowBlock_cases (comp : Component) :
    (∃ b, dataFlowBlock comp = .ok b) ∨ dataFlowBlock comp = .error (.keyError "name") := by
  by_cases hemp : (comp.connections.getD []).isEmpty
  · exact Or.inl ⟨[], by simp [dataFlowBlock, hemp]⟩
  · cases hn : comp.name with
    | none => exact Or.inr (by simp [dataFlowBlock, hemp, hn])
    | some nm =>
        exact Or.inl ⟨("### " ++ nm) :: ((comp.connections.getD []).map connLine ++ [""]),
          by simp [dataFlowBlock, hemp, hn]⟩

theorem dataFlowLines_ok {comps : List Component}
    (h : ∀ comp ∈ comps, comp.connections.getD [] ≠ [] → comp.name ≠ none) :
    ∃ ls, dataFlowLines comps = .ok ls := by
  induction comps with
  | nil => exact ⟨[], rfl⟩
  | cons c cs ih =>
      have hc := h c (List.mem_cons_self c cs)
      have hblock : ∃ b, dataFlowBlock c = .ok b := by
        by_cases hemp : (c.connections.getD []).isEmpty
        · exact ⟨[], by simp [dataFlowBlock, hemp]⟩
        · have hne : c.connections.getD [] ≠ [] := by
            simpa [List.isEmpty_iff] using hemp
          cases hn : c.name with
          | none => exact absurd hn (hc hne)
          | some nm =>
              exact ⟨("### " ++ nm) :: ((c.connections.getD []).map connLine ++ [""]),
                by simp [dataFlowBlock, hemp, hn]⟩
      obtain ⟨b, hb⟩ := hblock
      obtain ⟨ls, hls⟩ := ih fun x hx => h x (List.mem_cons_of_mem c hx)
      exact ⟨b ++ ls, by simp [dataFlowLines, hb, hls, Bind.bind, Except.bind, pure, Except.pure]⟩

theorem dataFlowLines_err {comps : List Component}
    (h : ∃ comp ∈ comps, comp.connections.getD [] ≠ [] ∧ comp.name = none) :
    dataFlowLines comps = .error (.keyError "name") := by
  induction comps with
  | nil =>
      obtain ⟨c, hc, -⟩ := h
      cases hc
  | cons c cs ih =>
      obtain ⟨d, hd, hconn, hname⟩ := h
      rcases List.mem_cons.mp hd with rfl | hd2
      · have hemp : ¬ (d.connections.getD []).isEmpty = true := by
          simp [List.isEmpty_iff, hconn]
        have hblock : dataFlowBlock d = .error (.keyError "name") := by
          simp [dataFlowBlock, hemp, hname]
        simp [dataFlowLines, hblock, Bind.bind, Except.bind]
      · rcases dataFlowBlock_cases c with ⟨b, hb⟩ | hb
        · have htail := ih ⟨d, hd2, hconn, hname⟩
          simp [dataFlowLines, hb, htail, Bind.bind, Except.bind]
        · simp [dataFlowLines, hb, Bind.bind, Except.bind]

/-- C9: the data-flow section reads `comp["name"]` without a default, so a
component record with a non-empty connections list and no `name` field
makes `generate_report` fail with `KeyError("name")`; with names present
on all connection-bearing components the renderer always succeeds — every
other missing field anywhere is replaced by its default. -/
theorem c9_nameless_component_keyerror :
    ∀ (cd : ComponentsData) (sd : StrideData) (ip now : String),
      ((∃ comp ∈ cd.components.getD [], comp.connections.getD [] ≠ [] ∧ comp.name = none) →
          generate_reportLines cd sd ip now = .error (.keyError "name")) ∧
      ((∀ comp ∈ cd.components.getD [], comp.connections.getD [] ≠ [] → comp.name ≠ none) →
          ∃ ls, generate_reportLines cd sd ip now = .ok ls) := by
  intro cd sd ip now
  constructor
  · intro h
    have hdf := dataFlowLines_err h
    simp [generate_reportLines, hdf, Bind.bind, Except.bind]
  · intro h
    obtain ⟨fl, hfl⟩ := dataFlowLines_ok h
    refine ⟨reportBody cd sd ip now fl, ?_⟩
    simp [generate_reportLines, hfl, Bind.bind, Except.bind, pure, Except.pure]

/-- A connection-bearing component with no `name` field. -/
def compBad : Component :=
  { name := none, type := none, provider := none, description := none,
    connections := some [{ target := some "X", data_flow := none }] }

/-- A component with every field missing. -/
def compAllDefaults : Component :=
  { name := none, type := none, provider := none, description := none,
    connections := none }

/-- A threat report with every field missing. -/
def sdNone : StrideData :=
  { stride_analysis := none, executive_summary := none, overall_risk_level := none }

/-- C9 witness: the nameless connected component raises `KeyError("name")`;
a document whose every field is missing renders fine on defaults. -/
theorem c9_nameless_component_keyerror_witness :
    generate_reportLines ⟨some [compBad], none⟩ sdNone "i.png" "T" =
        .error (.keyError "name") ∧
      ∃ ls, generate_reportLines ⟨some [compAllDefaults], none⟩ sdNone "i.png" "T" = .ok ls :=
  ⟨(c9_nameless_component_keyerror ⟨some [compBad], none⟩ sdNone "i.png" "T").1 (by decide),
    (c9_nameless_component_keyerror ⟨some [compAllDefaults], none⟩ sdNone "i.png" "T").2
      (by decide)⟩

/-! ## C7 — determinism up to the timestamp line -/

/-- C7: two renders on identical documents and paths differ at most in the
`Gerado em` timestamp line, line index 2 of the report: they fail
identically, or both succeed with line lists of equal length agreeing at
every index other than 2, index 2 carrying the respective timestamps. -/
theorem c7_deterministic_up_to_timestamp :
    ∀ (cd : ComponentsData) (sd : StrideData) (ip now₁ now₂ : String),
      (∃ e, generate_reportLines cd sd ip now₁ = .error e ∧
          generate_reportLines cd sd ip now₂ = .error e) ∨
      (∃ l₁ l₂, generate_reportLines cd sd ip now₁ = .ok l₁ ∧
          generate_reportLines cd sd ip now₂ = .ok l₂ ∧
          l₁.length = l₂.length ∧
          l₁.get? 2 = some ("**Gerado em:** " ++ now₁ ++ "  ") ∧
          l₂.get? 2 = some ("**Gerado em:** " ++ now₂ ++ "  ") ∧
          ∀ i, i ≠ 2 → l₁.get? i = l₂.get? i) := by
  intro cd sd ip now₁ now₂
  cases hdf : dataFlowLines (cd.components.getD []) with
  | error e =>
      refine Or.inl ⟨e, ?_, ?_⟩
      · simp [generate_reportLines, hdf, Bind.bind, Except.bind]
      · simp [generate_reportLines, hdf, Bind.bind, Except.bind]
  | ok flows =>
      refine Or.inr ⟨reportBody cd sd ip now₁ flows, reportBody cd sd ip now₂ flows,
        ?_, ?_, ?_, rfl, rfl, ?_⟩
      · simp [generate_reportLines, hdf, Bind.bind, Except.bind, pure, Except.pure]
      · simp [generate_reportLines, hdf, Bind.bind, Except.bind, pure, Except.pure]
      · simp [reportBody]
      · intro i hi
        rcases i with _ | _ | _ | _ | _ | _ | _ | _ | i
        · rfl
        · rfl
        · exact absurd rfl hi
        · rfl
        · rfl
        · rfl
        · rfl
        · rfl
        · rfl


/-! ## Lemmas about the tally dictionaries (lines 344–372) -/

theorem pyDictGet_pyDictSet {α β : Type} [DecidableEq α]
    (d : List (α × β)) (key k : α) (v dflt : β) :
    pyDictGet (pyDictSet d key v) k dflt = if k = key then v else pyDictGet d k dflt := by
  induction d with
  | nil => simp [pyDictSet, pyDictGet]
  | cons hd tl ih =>
      obtain ⟨a, b⟩ := hd
      by_cases hka : key = a
      · subst hka
        by_cases hk : k = key <;> simp [pyDictSet, pyDictGet, hk]
      · by_cases hk : k = a
        · subst hk
          have hkk : ¬ k = key := fun h => hka h.symm
          simp [pyDictSet, pyDictGet, hka, hkk]
        · simp [pyDictSet, pyDictGet, hka, hk, ih]

theorem foldl_tallyThreat_fst (ts : List Threat) :
    ∀ (acc : List (String × Nat) × List (String × Nat)) (l : String),
      pyDictGet (ts.foldl tallyThreat acc).1 l 0 =
        pyDictGet acc.1 l 0 + (ts.filter fun t => sevOf t = l).length := by
  induction ts with
  | nil => intro acc l; simp
  | cons t ts ih =>
      intro acc l
      simp only [List.foldl_cons, ih, tallyThreat, pyDictGet_pyDictSet, List.filter_cons]
      by_cases h : sevOf t = l
      · subst h
        simp
        omega
      · have hne : ¬ l = sevOf t := fun hl => h hl.symm
        simp [h, hne]

theorem foldl_tallyThreat_snd (ts : List Threat) :
    ∀ (acc : List (String × Nat) × List (String × Nat)) (l : String),
      pyDictGet (ts.foldl tallyThreat acc).2 l 0 =
        pyDictGet acc.2 l 0 + (ts.filter fun t => catOf t = l).length := by
  induction ts with
  | nil => intro acc l; simp
  | cons t ts ih =>
      intro acc l
      simp only [List.foldl_cons, ih, tallyThreat, pyDictGet_pyDictSet, List.filter_cons]
      by_cases h : catOf t = l
      · subst h
        simp
        omega
      · have hne : ¬ l = catOf t := fun hl => h hl.symm
        simp [h, hne]

theorem tallyEntries_fst (entries : List StrideEntry) (l : String) :
    pyDictGet (tallyEntries entries).1 l 0 =
      pyDictGet severityCountsInit l 0 + sevCount entries l := by
  suffices h : ∀ (acc : List (String × Nat) × List (String × Nat)),
      pyDictGet (entries.foldl (fun acc e => (e.threats.getD []).foldl tallyThreat acc) acc).1 l 0 =
        pyDictGet acc.1 l 0 + sevCount entries l from h (severityCountsInit, [])
  induction entries with
  | nil => intro acc; simp [sevCount, threatsOf]
  | cons e es ih =>
      intro acc
      simp only [List.foldl_cons, ih, foldl_tallyThreat_fst]
      simp [sevCount, threatsOf, List.filter_append]
      omega

theorem tallyEntries_snd (entries : List StrideEntry) (l : String) :
    pyDictGet (tallyEntries entries).2 l 0 = catCount entries l := by
  suffices h : ∀ (acc : List (String × Nat) × List (String × Nat)),
      pyDictGet (entries.foldl (fun acc e => (e.threats.getD []).foldl tallyThreat acc) acc).2 l 0 =
        pyDictGet acc.2 l 0 + catCount entries l by
    have h2 := h (severityCountsInit, [])
    simpa [tallyEntries, pyDictGet] using h2
  induction entries with
  | nil => intro acc; simp [catCount, threatsOf]
  | cons e es ih =>
      intro acc
      simp only [List.foldl_cons, ih, foldl_tallyThreat_snd]
      simp [catCount, threatsOf, List.filter_append]
      omega

/-- The severity-table loop (lines 358–361) emits exactly the four rows of
the English labels, whatever the tally: only they have a non-neutral emoji
in `SEVERITY_EMOJI`. -/
theorem severityTableRows_eq (sc : List (String × Nat)) :
    severityTableRows sc =
      ["| 🔴 Critical | " ++ toString (pyDictGet sc "Critical" 0) ++ " |",
       "| 🟠 High | " ++ toString (pyDictGet sc "High" 0) ++ " |",
       "| 🟡 Medium | " ++ toString (pyDictGet sc "Medium" 0) ++ " |",
       "| 🟢 Low | " ++ toString (pyDictGet sc "Low" 0) ++ " |"] := rfl

/-- The category table is one row per STRIDE category, reading the tally
with default 0. -/
theorem categoryTableRows_eq (cc : List (String × Nat)) :
    categoryTableRows cc =
      ["| Spoofing | " ++ toString (pyDictGet cc "Spoofing" 0) ++ " |",
       "| Tampering | " ++ toString (pyDictGet cc "Tampering" 0) ++ " |",
       "| Repudiation | " ++ toString (pyDictGet cc "Repudiation" 0) ++ " |",
       "| Information Disclosure | " ++ toString (pyDictGet cc "Information Disclosure" 0) ++ " |",
       "| Denial of Service | " ++ toString (pyDictGet cc "Denial of Service" 0) ++ " |",
       "| Elevation of Privilege | " ++ toString (pyDictGet cc "Elevation of Privilege" 0) ++ " |"] := rfl

/-! ## C1 — severity counts and unrecognized categories -/

/-- A threat report whose threats carry the severities Critical, Critical,
Low. -/
def entriesC1 : List StrideEntry :=
  [{ component_name := some "X", component_type := some "Servidor Web",
     threats := some
       [{ category := some "Spoofing", threat := some "a", severity := some "Critical",
          vulnerabilities := some [], countermeasures := some [] },
        { category := some "Tampering", threat := some "b", severity := some "Critical",
          vulnerabilities := some [], countermeasures := some [] },
        { category := some "Spoofing", threat := some "c", severity := some "Low",
          vulnerabilities := some [], countermeasures := some [] }] }]

/-- C1: for threats with severities Critical, Critical, Low the severity
table reports Critical=2, High=0, Medium=0, Low=1; and a threat whose
category is none of the six STRIDE labels changes no row of the
`Por Categoria STRIDE` table — it is counted under none of them. -/
theorem c1_severity_and_category_counting :
    severityTableRows (tallyEntries entriesC1).1 =
        ["| 🔴 Critical | 2 |", "| 🟠 High | 0 |", "| 🟡 Medium | 0 |", "| 🟢 Low | 1 |"] ∧
      ∀ (entries : List StrideEntry) (t : Threat),
        catOf t ∉ strideCategories →
        categoryTableRows (tallyEntries (entries ++
            [{ component_name := none, component_type := none, threats := some [t] }])).2 =
          categoryTableRows (tallyEntries entries).2 := by
  constructor
  · rfl
  · intro entries t h
    have hc : ∀ c, c ∈ strideCategories →
        catCount (entries ++ [⟨none, none, some [t]⟩]) c = catCount entries c := by
      intro c hcmem
      have hne : ¬ catOf t = c := fun he => h (he ▸ hcmem)
      simp [catCount, threatsOf, List.filter_append, hne]
    have h6 : ∀ c, c ∈ strideCategories →
        pyDictGet (tallyEntries (entries ++ [⟨none, none, some [t]⟩])).2 c 0 =
          pyDictGet (tallyEntries entries).2 c 0 := by
      intro c hcmem
      rw [tallyEntries_snd, tallyEntries_snd, hc c hcmem]
    rw [categoryTableRows_eq, categoryTableRows_eq,
      h6 "Spoofing" (by decide), h6 "Tampering" (by decide),
      h6 "Repudiation" (by decide), h6 "Information Disclosure" (by decide),
      h6 "Denial of Service" (by decide), h6 "Elevation of Privilege" (by decide)]

/-- A threat with a category outside the six STRIDE labels. -/
def threatWeird : Threat :=
  { category := some "Phishing", threat := none, severity := some "Low",
    vulnerabilities := none, countermeasures := none }

/-- C1 witness: adding a `Phishing` threat leaves every category row
unchanged. -/
theorem c1_severity_and_category_counting_witness :
    categoryTableRows (tallyEntries ([] ++
        [{ component_name := none, component_type := none, threats := some [threatWeird] }])).2 =
      categoryTableRows (tallyEntries []).2 :=
  c1_severity_and_category_counting.2 [] threatWeird (by decide)

/-! ## C2 — the two severity vocabularies are not merged -/

/-- One threat labelled with the Portuguese severity `Crítica`. -/
def entryPT : StrideEntry :=
  { component_name := some "A", component_type := none,
    threats := some
      [{ category := some "Spoofing", threat := none, severity := some "Crítica",
         vulnerabilities := none, countermeasures := none }] }

/-- The same threat labelled with the English severity `Critical`. -/
def entryEN : StrideEntry :=
  { component_name := some "A", component_type := none,
    threats := some
      [{ category := some "Spoofing", threat := none, severity := some "Critical",
         vulnerabilities := none, countermeasures := none }] }

/-- C2 counterexample: a report with one `Crítica` threat displays
Critical=0 (the threat reaches no displayed row at all), while the same
threat labelled `Critical` displays Critical=1 — the two vocabularies are
not merged into the same displayed count. -/
theorem c2_vocabularies_not_merged_counterexample :
    severityTableRows (tallyEntries [entryPT]).1 =
        ["| 🔴 Critical | 0 |", "| 🟠 High | 0 |", "| 🟡 Medium | 0 |", "| 🟢 Low | 0 |"] ∧
      severityTableRows (tallyEntries [entryEN]).1 =
        ["| 🔴 Critical | 1 |", "| 🟠 High | 0 |", "| 🟡 Medium | 0 |", "| 🟢 Low | 0 |"] :=
  ⟨rfl, rfl⟩

/-- C2 amended: the summary matrix tallies the two vocabularies in
separate buckets and emits rows only for the four English labels; each
displayed count is the number of threats carrying exactly that English
label, so a Portuguese-labelled threat contributes to no displayed count. -/
theorem c2_english_rows_count_english_labels_only :
    ∀ entries : List StrideEntry,
      severityTableRows (tallyEntries entries).1 =
        ["| 🔴 Critical | " ++ toString (sevCount entries "Critical") ++ " |",
         "| 🟠 High | " ++ toString (sevCount entries "High") ++ " |",
         "| 🟡 Medium | " ++ toString (sevCount entries "Medium") ++ " |",
         "| 🟢 Low | " ++ toString (sevCount entries "Low") ++ " |"] := by
  intro entries
  rw [severityTableRows_eq, tallyEntries_fst, tallyEntries_fst, tallyEntries_fst,
    tallyEntries_fst]
  norm_num [severityCountsInit, pyDictGet]

/-! ## C10 — the `Baixa` default and the skipped Portuguese rows -/

/-- C10: a threat with no severity field is tallied under the Portuguese
label `Baixa` (and in general under exactly its label string), yet the
row-emission loop prints only the four English labels of
`SEVERITY_EMOJI` — every other label's emoji is the neutral placeholder
and its row is skipped, so the Portuguese buckets are never displayed. -/
theorem c10_baixa_default_never_displayed :
    (∀ (counts : List (String × Nat) × List (String × Nat)) (t : Threat),
        t.severity = none →
        (tallyThreat counts t).1 =
          pyDictSet counts.1 "Baixa" (pyDictGet counts.1 "Baixa" 0 + 1)) ∧
    (∀ (counts : List (String × Nat) × List (String × Nat)) (t : Threat) (s : String),
        t.severity = some s →
        (tallyThreat counts t).1 = pyDictSet counts.1 s (pyDictGet counts.1 s 0 + 1)) ∧
    (∀ sc : List (String × Nat),
        severityTableRows sc =
          ["| 🔴 Critical | " ++ toString (pyDictGet sc "Critical" 0) ++ " |",
           "| 🟠 High | " ++ toString (pyDictGet sc "High" 0) ++ " |",
           "| 🟡 Medium | " ++ toString (pyDictGet sc "Medium" 0) ++ " |",
           "| 🟢 Low | " ++ toString (pyDictGet sc "Low" 0) ++ " |"]) := by
  refine ⟨fun counts t h => ?_, fun counts t s h => ?_, severityTableRows_eq⟩
  · simp [tallyThreat, sevOf, h]
  · simp [tallyThreat, sevOf, h]

/-- A threat record with no severity field. -/
def threatNoSeverity : Threat :=
  { category := none, threat := none, severity := none,
    vulnerabilities := none, countermeasures := none }

/-- C10 witness: tallying the severity-less threat from the initial
dictionary bumps the `Baixa` bucket. -/
theorem c10_baixa_default_never_displayed_witness :
    (tallyThreat (severityCountsInit, []) threatNoSeverity).1 =
      pyDictSet severityCountsInit "Baixa" (pyDictGet severityCountsInit "Baixa" 0 + 1) :=
  c10_baixa_default_never_displayed.1 (severityCountsInit, []) threatNoSeverity rfl

/-! ## C6 — the two-component end-to-end scenario -/

/-- Component `Frontend`, connected to `Backend`. -/
def compFrontend : Component :=
  { name := some "Frontend", type := some "Cliente", provider := some "Genérico",
    description := some "Interface web",
    connections := some [{ target := some "Backend", data_flow := some "HTTPS" }] }

/-- Component `Backend`, with no outgoing connection. -/
def compBackend : Component :=
  { name := some "Backend", type := some "Servidor Web", provider := some "Genérico",
    description := some "API", connections := some [] }

/-- The two-component architecture document of the scenario. -/
def cdC6 : ComponentsData :=
  { components := some [compFrontend, compBackend],
    architecture_summary := some "Dois componentes conectados." }

/-- The threat report of the scenario: one Spoofing threat per component. -/
def sdC6 : StrideData :=
  { stride_analysis := some
      [{ component_name := some "Frontend", component_type := some "Cliente",
         threats := some
           [{ category := some "Spoofing", threat := some "Falsificação de sessão",
              severity := some "High", vulnerabilities := some ["v1"],
              countermeasures := some ["c1"] }] },
       { component_name := some "Backend", component_type := some "Servidor Web",
         threats := some
           [{ category := some "Spoofing", threat := some "Token forjado",
              severity := some "Medium", vulnerabilities := some ["v2"],
              countermeasures := some ["c2"] }] }],
    executive_summary := some "Resumo executivo.",
    overall_risk_level := some "High" }

/-- C6: on the two-component document with one connection and one Spoofing
threat per component, the renderer produces exactly one data-flow section,
two per-component STRIDE tables with one threat row each, and a category
matrix with Spoofing=2 and 0 elsewhere — shown by the full report. -/
theorem c6_two_component_scenario :
    dataFlowLines (cdC6.components.getD []) =
        .ok ["### Frontend", "- → **Backend**: HTTPS", ""] ∧
      strideAnalysisLines (sdC6.stride_analysis.getD []) =
        ["### 🔹 Frontend (Cliente)", "",
         "| Categoria | Ameaça | Severidade | Vulnerabilidades | Contramedidas |",
         "|-----------|--------|-----------|-------------------|----|",
         "| **Spoofing** | Falsificação de sessão | 🟠 High | v1 | c1 |", "",
         "### 🔹 Backend (Servidor Web)", "",
         "| Categoria | Ameaça | Severidade | Vulnerabilidades | Contramedidas |",
         "|-----------|--------|-----------|-------------------|----|",
         "| **Spoofing** | Token forjado | 🟡 Medium | v2 | c2 |", ""] ∧
      categoryTableRows (tallyEntries (sdC6.stride_analysis.getD [])).2 =
        ["| Spoofing | 2 |", "| Tampering | 0 |", "| Repudiation | 0 |",
         "| Information Disclosure | 0 |", "| Denial of Service | 0 |",
         "| Elevation of Privilege | 0 |"] ∧
      generate_reportLines cdC6 sdC6 "diagram.png" "2025-01-01 00:00:00" =
        .ok ["# 🛡️ Relatório de Modelagem de Ameaças STRIDE", "",
          "**Gerado em:** 2025-01-01 00:00:00  ",
          "**Diagrama de Origem:** `diagram.png`  ",
          "**Nível de Risco Geral:** 🟠 **High**", "", "---", "",
          "## 📋 Resumo Executivo", "", "Resumo executivo.", "",
          "## 🏗️ Visão Geral da Arquitetura", "", "Dois componentes conectados.", "",
          "## 🧩 Componentes Identificados", "",
          "| # | Componente | Tipo | Provedor | Descrição |",
          "|---|-----------|------|----------|-----------|",
          "| 1 | **Frontend** | Cliente | Genérico | Interface web |",
          "| 2 | **Backend** | Servidor Web | Genérico | API |", "",
          "## 🔄 Fluxo de Dados", "", "### Frontend", "- → **Backend**: HTTPS", "",
          "---", "", "## 🔍 Análise de Ameaças STRIDE", "",
          "### 🔹 Frontend (Cliente)", "",
          "| Categoria | Ameaça | Severidade | Vulnerabilidades | Contramedidas |",
          "|-----------|--------|-----------|-------------------|----|",
          "| **Spoofing** | Falsificação de sessão | 🟠 High | v1 | c1 |", "",
          "### 🔹 Backend (Servidor Web)", "",
          "| Categoria | Ameaça | Severidade | Vulnerabilidades | Contramedidas |",
          "|-----------|--------|-----------|-------------------|----|",
          "| **Spoofing** | Token forjado | 🟡 Medium | v2 | c2 |", "",
          "---", "", "## 📊 Matriz de Resumo de Risco", "", "### Por Severidade", "",
          "| Severidade | Quantidade |", "|----------|-------|",
          "| 🔴 Critical | 0 |", "| 🟠 High | 1 |", "| 🟡 Medium | 1 |",
          "| 🟢 Low | 0 |", "",
          "### Por Categoria STRIDE", "", "| Categoria | Quantidade |",
          "|----------|-------|", "| Spoofing | 2 |", "| Tampering | 0 |",
          "| Repudiation | 0 |", "| Information Disclosure | 0 |",
          "| Denial of Service | 0 |", "| Elevation of Privilege | 0 |", "",
          "---", "",
          "*Este relatório foi gerado automaticamente usando análise de arquitetura com IA e modelagem de ameaças STRIDE. Os achados devem ser revisados e validados por um profissional de segurança qualificado.*",
          ""] :=
  ⟨rfl, rfl, rfl, rfl⟩

/-! ## C8 — no operation mutates a document after its creation -/

/-- C8: in the state-threaded embeddings, `analyze_stride` returns its
`components_data` argument unchanged and `generate_report` returns both
document arguments unchanged, for every input and every behaviour of the
external calls. -/
theorem c8_no_mutation_of_documents :
    (∀ (J : Type) (dumps : List Component → String)
        (promptFormat : String → String → String) (llmInvoke : String → List Char)
        (jsonLoads : List Char → Option J) (cd : ComponentsData),
        (analyze_strideSt dumps promptFormat llmInvoke jsonLoads cd).2 = cd) ∧
    (∀ (cd : ComponentsData) (sd : StrideData) (ip op now : String),
        (generate_reportSt cd sd ip op now).2 = (cd, sd)) :=
  ⟨fun _ _ _ _ _ _ => rfl, fun _ _ _ _ _ => rfl⟩
